import Mathlib

/-!
Shallow embedding of `main.go` from the `cognito-oauth2` service.

The service verifies Apple identity tokens (`verifyAppleIDToken`, using
`github.com/golang-jwt/jwt/v4` and a JWK set fetched from Apple) and exposes two
HTTP handlers (`loginWithAppleHandler`, `loginWithGoogleHandler`) that verify a
token and then exchange the identity with Cognito (`InitiateAuth`).

Modelling conventions:
* JSON claim/header values are `ClaimValue` (string, integer number, or other);
  `exp`/`iat`/`nbf` are modelled at second granularity as `Int` (Go decodes JSON
  numbers to `float64`; token timestamps are integral seconds).
* Network collaborators (the JWK fetch, `idtoken.Validate`, Cognito
  `InitiateAuth`) are oracles passed as parameters: an `Option`/`Except` result
  or a function producing one.
* Each operation additionally returns the list of externally visible `Event`s
  (key-set fetch, key lookup by kid, InitiateAuth call), in order.
* `jwt.Parse` is modelled after golang-jwt/jwt v4 `Parser.ParseWithClaims` with
  `MapClaims`: structural parse, then the keyfunc (which here checks the ECDSA
  method, extracts `kid`, looks the key up), then `MapClaims.Valid()`
  (exp/iat/nbf, each optional), then signature verification; claim-validation
  and signature errors accumulate in one `ValidationError` bitmask.
-/

namespace CognitoOAuth2

/-- A decoded JSON value as it appears in a JWT header or claim map
(`interface\x7b\x7d` in Go): a string, an (integral) number, or anything else. -/
inductive ClaimValue where
  | str (s : String)
  | num (n : Int)
  | other
deriving DecidableEq

/-- `jwt.MapClaims` / the token's claim map, as an association list. -/
abbrev Claims := List (String × ClaimValue)

/-- Map lookup `claims[k]`: `none` models a missing key (nil interface). -/
def getClaim (cs : Claims) (k : String) : Option ClaimValue :=
  (cs.find? (fun p => p.1 == k)).map (fun p => p.2)

/-- The signing algorithms registered with golang-jwt that a token header may
declare (`alg`). `algNone` is the registered "none" method. -/
inductive Alg where
  | ES256
  | ES384
  | ES512
  | RS256
  | HS256
  | algNone
deriving DecidableEq

/-- Whether the method is of the `*jwt.SigningMethodECDSA` family — the type
assertion at main.go:82. -/
def Alg.isECDSA : Alg → Bool
  | .ES256 => true
  | .ES384 => true
  | .ES512 => true
  | _ => false

/-- The `alg` header string of a method, used in the keyfunc error message. -/
def Alg.name : Alg → String
  | .ES256 => "ES256"
  | .ES384 => "ES384"
  | .ES512 => "ES512"
  | .RS256 => "RS256"
  | .HS256 => "HS256"
  | .algNone => "none"

/-- One public key of the Apple JWK set. `rawOK` models whether `key.Raw`
(main.go:97) succeeds in materialising the public key. -/
structure JWK where
  kid : String
  rawOK : Bool
deriving DecidableEq

/-- `jwk.Set`: the fetched key set. -/
abbrev KeySet := List JWK

/-- `set.LookupKeyID(keyID)` (main.go:91). -/
def lookupKeyID (s : KeySet) (k : String) : Option JWK :=
  s.find? (fun j => j.kid == k)

/-- The decoded JOSE header of a presented token: the declared algorithm and the
`kid` entry (`t.Header["kid"]` may be absent or a non-string JSON value). -/
structure TokenHeader where
  alg : Alg
  kid : Option ClaimValue

/-- A presented compact token, by its decoded content. `wellFormed` models
whether `ParseUnverified` succeeds (three dot-separated segments, base64/JSON
header and claims decode, registered `alg`). `sigValidFor kid` models whether
the token's signature verifies under the set's key named `kid`. -/
structure RawToken where
  wellFormed : Bool
  header : TokenHeader
  claims : Claims
  sigValidFor : String → Bool

/-- Externally visible events of one request, in order. -/
inductive Event where
  | fetchKeySet
  | lookupKey (kid : String)
  | initiateAuth (username : String)
deriving DecidableEq

/-- Number of key-set fetches in a trace. -/
def countFetch : List Event → Nat
  | [] => 0
  | .fetchKeySet :: tr => countFetch tr + 1
  | _ :: tr => countFetch tr

/-- Number of `LookupKeyID` calls in a trace. -/
def countLookup : List Event → Nat
  | [] => 0
  | .lookupKey _ :: tr => countLookup tr + 1
  | _ :: tr => countLookup tr

/-- Whether a trace contains an `InitiateAuth` (credential exchange) call. -/
def hasInitiateAuth : List Event → Bool
  | [] => false
  | .initiateAuth _ :: _ => true
  | _ :: tr => hasInitiateAuth tr

/-- The ways the keyfunc closure (main.go:81–101) can fail. -/
inductive KeyfuncErr where
  | unexpectedSigningMethod (alg : Alg)
  | missingKid
  | noMatchingJWK (kid : String)
  | rawFailed
deriving DecidableEq

/-- The keyfunc closure passed to `jwt.Parse` (main.go:81–101): reject non-ECDSA
methods, extract `kid` as a string, look the key up in the set, materialise it. -/
def keyfunc (set : KeySet) (t : RawToken) : Except KeyfuncErr JWK × List Event :=
  if !t.header.alg.isECDSA then
    (.error (.unexpectedSigningMethod t.header.alg), [])
  else
    match t.header.kid with
    | some (.str k) =>
      match lookupKeyID set k with
      | none => (.error (.noMatchingJWK k), [.lookupKey k])
      | some key =>
        if key.rawOK then (.ok key, [.lookupKey k])
        else (.error .rawFailed, [.lookupKey k])
    | _ => (.error .missingKid, [])

/-- `MapClaims.VerifyExpiresAt(now, false)` of golang-jwt v4: passes when `exp`
is absent or the float `0`; a non-numeric `exp` fails; otherwise requires
`now < exp` (strictly, the token is valid while `now` is before `exp`). -/
def verifyExpiresAt (cs : Claims) (now : Int) : Bool :=
  match getClaim cs "exp" with
  | none => true
  | some (.num e) => if e = 0 then true else now < e
  | some _ => false

/-- `MapClaims.VerifyIssuedAt(now, false)`: absent or `0` passes; a non-numeric
`iat` fails; otherwise requires `iat ≤ now`. -/
def verifyIssuedAt (cs : Claims) (now : Int) : Bool :=
  match getClaim cs "iat" with
  | none => true
  | some (.num i) => if i = 0 then true else i ≤ now
  | some _ => false

/-- `MapClaims.VerifyNotBefore(now, false)`: absent or `0` passes; a non-numeric
`nbf` fails; otherwise requires `nbf ≤ now`. -/
def verifyNotBefore (cs : Claims) (now : Int) : Bool :=
  match getClaim cs "nbf" with
  | none => true
  | some (.num n) => if n = 0 then true else n ≤ now
  | some _ => false

/-- The flags of a golang-jwt `ValidationError` bitmask that this code path can
set after the keyfunc succeeded: claim-validation flags and signature failure. -/
structure VErrBits where
  expired : Bool
  iatInvalid : Bool
  nbfInvalid : Bool
  sigInvalid : Bool
deriving DecidableEq

/-- Outcome of `jwt.Parse` (golang-jwt v4 `ParseWithClaims` with `MapClaims`). -/
inductive ParseOutcome where
  | malformed
  | keyfuncFailed (e : KeyfuncErr)
  | invalid (bits : VErrBits)
  | ok (claims : Claims)
deriving DecidableEq

/-- `jwt.Parse(tokenString, keyfunc)` (main.go:81): structural parse, then the
keyfunc (failure returns immediately, `ValidationErrorUnverifiable`), then
`Claims.Valid()` (exp/iat/nbf) and signature verification, whose failures
accumulate; the token is `Valid` iff no flag is set. -/
def jwtParse (set : KeySet) (t : RawToken) (now : Int) : ParseOutcome × List Event :=
  if !t.wellFormed then (.malformed, [])
  else
    match keyfunc set t with
    | (.error e, tr) => (.keyfuncFailed e, tr)
    | (.ok key, tr) =>
      let bits : VErrBits :=
        { expired := !verifyExpiresAt t.claims now
          iatInvalid := !verifyIssuedAt t.claims now
          nbfInvalid := !verifyNotBefore t.claims now
          sigInvalid := !t.sigValidFor key.kid }
      if bits.expired || bits.iatInvalid || bits.nbfInvalid || bits.sigInvalid then
        (.invalid bits, tr)
      else
        (.ok t.claims, tr)

/-- The failure cases of `verifyAppleIDToken` (main.go:75–122). -/
inductive AppleVerifyError where
  /-- `fetchAppleJWKSet` failed (main.go:76–79). -/
  | fetchFailed
  /-- `jwt.Parse` returned an error, wrapped as
  "apple token validation failed: %w" (main.go:102–104). -/
  | tokenValidationFailed (p : ParseOutcome)
  /-- "invalid token claims" (main.go:106–109). Unreachable under the modelled
  `jwt.Parse`, which returns a nil error only with `Valid = true` and
  `MapClaims` claims; kept for completeness of the source's error set. -/
  | invalidTokenClaims
  /-- "token expired" (main.go:112–116). -/
  | tokenExpired
  /-- "invalid audience: %s" (main.go:117–119). -/
  | invalidAudience (aud : String)
deriving DecidableEq

/-- The audience check at main.go:117–119: only an `aud` claim that is present
*and* a string is compared against the expected audience; otherwise the claims
are returned as verified. -/
def checkAud (claims : Claims) (audience : String) : Except AppleVerifyError Claims :=
  match getClaim claims "aud" with
  | some (.str a) => if a ≠ audience then .error (.invalidAudience a) else .ok claims
  | _ => .ok claims

/-- `verifyAppleIDToken(tokenString, audience)` (main.go:75–122).
`fetchResult` is the outcome of `fetchAppleJWKSet()`, performed unconditionally
at the start of every call (main.go:76); `none` models a fetch failure. After a
successful parse, the explicit expiry check (main.go:112–116) fires only when
`exp` is present as a number and strictly in the past, then the audience check
(main.go:117–119) runs. -/
def verifyAppleIDToken (fetchResult : Option KeySet) (t : RawToken) (now : Int)
    (audience : String) : Except AppleVerifyError Claims × List Event :=
  match fetchResult with
  | none => (.error .fetchFailed, [.fetchKeySet])
  | some set =>
    match jwtParse set t now with
    | (.ok claims, tr) =>
      match getClaim claims "exp" with
      | some (.num e) =>
        if e < now then (.error .tokenExpired, .fetchKeySet :: tr)
        else (checkAud claims audience, .fetchKeySet :: tr)
      | _ => (checkAud claims audience, .fetchKeySet :: tr)
    | (p, tr) => (.error (.tokenValidationFailed p), .fetchKeySet :: tr)

/-- Error message of a keyfunc failure, following the source's formats. -/
def keyfuncErrMsg : KeyfuncErr → String
  | .unexpectedSigningMethod a => "unexpected signing method: " ++ a.name
  | .missingKid => "missing kid header in token"
  | .noMatchingJWK k => "no matching JWK for kid: " ++ k
  | .rawFailed => "failed to obtain raw key"

/-- Error message of a `jwt.Parse` failure (golang-jwt renders the wrapped inner
error; a signature-verification failure overwrites a claim-validation one). -/
def parseOutcomeMsg : ParseOutcome → String
  | .malformed => "token contains an invalid number of segments"
  | .keyfuncFailed e => keyfuncErrMsg e
  | .invalid b =>
    if b.sigInvalid then "crypto/ecdsa: verification error"
    else if b.expired then "Token is expired"
    else if b.iatInvalid then "Token used before issued"
    else "Token is not valid yet"
  | .ok _ => ""

/-- Error message of a `verifyAppleIDToken` failure, following the source's
`fmt.Errorf`/`errors.New` formats. -/
def appleVerifyErrorMsg : AppleVerifyError → String
  | .fetchFailed => "failed to fetch Apple JWKs: fetch error"
  | .tokenValidationFailed p => "apple token validation failed: " ++ parseOutcomeMsg p
  | .invalidTokenClaims => "invalid token claims"
  | .tokenExpired => "token expired"
  | .invalidAudience a => "invalid audience: " ++ a

/-- `fmt.Sprintf("%v", claims["email"])` (main.go:141): a missing key is the nil
interface, printed `<nil>`; a string prints verbatim; numeric and other JSON
values print via Go's default formatting, collapsed under the `ClaimValue`
abstraction. -/
def sprintfV : Option ClaimValue → String
  | none => "<nil>"
  | some (.str s) => s
  | some (.num n) => toString n
  | some .other => "<other>"

/-- An HTTP response body: either plain text written by `http.Error` (the
trailing newline it appends is elided), or the field list of a struct written
by `json.NewEncoder(w).Encode`. -/
inductive RespBody where
  | text (s : String)
  | jsonFields (fields : List (String × String))
deriving DecidableEq

/-- An HTTP response as the handlers produce it: the status code (200 when only
the body was written) and the body. -/
structure HTTPResponse where
  status : Nat
  body : RespBody
deriving DecidableEq

/-- `aws.ToString`: dereference an optional string pointer, `""` for nil. -/
def awsToString : Option String → String
  | none => ""
  | some s => s

/-- The `AuthenticationResult` of a successful Cognito `InitiateAuth`. -/
structure AuthResult where
  accessToken : Option String
  idToken : Option String
  refreshToken : Option String
deriving DecidableEq

/-- `AppleLoginRequest` (main.go:38–40): the decoded request body; the token
string is modelled by the `RawToken` it denotes. -/
structure AppleLoginRequest where
  idToken : RawToken

/-- Encode `AppleLoginResponse` (main.go:42–47): every field carries
`omitempty`, so empty strings are dropped. -/
def encodeAppleLoginResponse (access idTok refresh msg : String) : RespBody :=
  .jsonFields
    ((if access = "" then [] else [("access_token", access)]) ++
     (if idTok = "" then [] else [("id_token", idTok)]) ++
     (if refresh = "" then [] else [("refresh_token", refresh)]) ++
     (if msg = "" then [] else [("message", msg)]))

/-- `loginWithAppleHandler` (main.go:124–164). Oracles: `fetchResult` and `now`
feed `verifyAppleIDToken`; `initiateAuth` is Cognito `InitiateAuth` with the
CUSTOM_AUTH flow keyed by the extracted username; `reqBody` is the outcome of
`json.Unmarshal` on the request body (`none` = unmarshal error). Returns the
response and the ordered event trace. -/
def loginWithAppleHandler (appleClientID : String) (fetchResult : Option KeySet)
    (now : Int) (initiateAuth : String → Except String AuthResult)
    (reqBody : Option AppleLoginRequest) : HTTPResponse × List Event :=
  match reqBody with
  | none => (⟨400, .text "\x7b\"error\": \"invalid request body\"\x7d"⟩, [])
  | some req =>
    match verifyAppleIDToken fetchResult req.idToken now appleClientID with
    | (.error e, tr) =>
      (⟨401, .text ("\x7b\"error\": \"apple token verification failed: "
          ++ appleVerifyErrorMsg e ++ "\"\x7d")⟩, tr)
    | (.ok claims, tr) =>
      let email := sprintfV (getClaim claims "email")
      match initiateAuth email with
      | .error _ =>
        (⟨200, encodeAppleLoginResponse "" "" ""
            ("Apple login verified for " ++ email ++ " (Cognito not configured)")⟩,
         tr ++ [.initiateAuth email])
      | .ok res =>
        (⟨200, encodeAppleLoginResponse (awsToString res.accessToken)
            (awsToString res.idToken) (awsToString res.refreshToken) ""⟩,
         tr ++ [.initiateAuth email])

/-- The payload `idtoken.Validate` returns for a Google token. -/
structure GPayload where
  claims : Claims

/-- `LoginRequest` (main.go:21–23): the decoded Google request body; the opaque
token string is kept as a string, handed to the validate oracle. -/
structure LoginRequest where
  idToken : String
deriving DecidableEq

/-- Outcome of the Google handler: a written response, or a runtime panic (the
unchecked type assertion at main.go:197). -/
inductive GoogleOutcome where
  | response (r : HTTPResponse)
  | panicked
deriving DecidableEq

/-- `loginWithGoogleHandler` (main.go:180–219). Oracles: `validate` is
`idtoken.Validate` on the token string; `initiateAuth` is Cognito
`InitiateAuth` (USER_SRP_AUTH) given the username and the raw token; `reqBody`
is the `json.Unmarshal` outcome. The `payload.Claims["email"].(string)` type
assertion is unchecked: a missing or non-string email claim panics. -/
def loginWithGoogleHandler (validate : String → Except String GPayload)
    (initiateAuth : String → String → Except String AuthResult)
    (reqBody : Option LoginRequest) : GoogleOutcome × List Event :=
  match reqBody with
  | none => (.response ⟨400, .text "invalid request body"⟩, [])
  | some req =>
    match validate req.idToken with
    | .error e => (.response ⟨401, .text ("invalid google token: " ++ e)⟩, [])
    | .ok payload =>
      match getClaim payload.claims "email" with
      | some (.str email) =>
        match initiateAuth email req.idToken with
        | .error e =>
          (.response ⟨401, .text ("cognito auth error: " ++ e)⟩,
           [.initiateAuth email])
        | .ok res =>
          (.response ⟨200, .jsonFields
              [("access_token", awsToString res.accessToken),
               ("id_token", awsToString res.idToken),
               ("refresh_token", awsToString res.refreshToken)]⟩,
           [.initiateAuth email])
      | _ => (.panicked, [])

/-- The process-wide mutable configuration state of the service (main.go:31–36,
49–53): the Cognito clients and identifiers set by `init`. Verification code
reads none of it and writes none of it. -/
structure AppState where
  userPoolID : String
  clientID : String
  googleClientID : String
  userPoolIDApple : String
  clientIDApple : String
deriving DecidableEq

/-- `verifyAppleIDToken` threaded through the process state: the Go function
touches no global state, so the state passes through unchanged and the result
is the pure function of (fetched key set, token, time, audience). -/
def verifyAppleIDTokenSt (σ : AppState) (fetchResult : Option KeySet)
    (t : RawToken) (now : Int) (audience : String) :
    (Except AppleVerifyError Claims × List Event) × AppState :=
  (verifyAppleIDToken fetchResult t now audience, σ)

/-- Whether one character list is a prefix of another. -/
def listIsPrefix : List Char → List Char → Bool
  | [], _ => true
  | _ :: _, [] => false
  | a :: as, b :: bs => a == b && listIsPrefix as bs

/-- The spec's required shape for a failure body, `\x7b"error": string\x7d`:
a JSON object whose single field is `error` or, for a plain-text body, one
whose text at least begins like such an object's serialization. -/
def isErrorObjectShaped : RespBody → Bool
  | .jsonFields fs =>
    match fs with
    | [(k, _)] => k == "error"
    | _ => false
  | .text s => listIsPrefix "\x7b\"error\"".toList s.toList

/-- Whether a `verifyAppleIDToken` failure reports expiry: the explicit
"token expired" error or a `jwt.Parse` validation error with the expired flag. -/
def expiryFlagged : AppleVerifyError → Bool
  | .tokenExpired => true
  | .tokenValidationFailed (.invalid b) => b.expired
  | _ => false

/-! ### Concrete fixtures used by counterexamples and witnesses -/

/-- A key set holding one materialisable key named `key-1`. -/
def sampleKeySet : KeySet := [⟨"key-1", true⟩]

/-- A well-formed ES256 token with known kid, future expiry, matching audience
`client-id`, an email claim, and a signature valid under every key. -/
def tokenGood : RawToken :=
  ⟨true, ⟨.ES256, some (.str "key-1")⟩,
   [("exp", .num 1000), ("aud", .str "client-id"), ("email", .str "user@example.com")],
   fun _ => true⟩

/-- A well-formed RS256 token with known kid and an expiry in the past
(relative to `now = 200`), signature valid under every key. -/
def tokenRS : RawToken :=
  ⟨true, ⟨.RS256, some (.str "key-1")⟩,
   [("exp", .num 100), ("aud", .str "client-id")], fun _ => true⟩

/-- A well-formed ES256 token naming a kid absent from `sampleKeySet`. -/
def tokenUnknownKid : RawToken :=
  ⟨true, ⟨.ES256, some (.str "other-kid")⟩,
   [("exp", .num 1000), ("aud", .str "client-id")], fun _ => true⟩

/-- A well-formed, validly signed ES256 token carrying no `exp` claim. -/
def tokenNoExp : RawToken :=
  ⟨true, ⟨.ES256, some (.str "key-1")⟩,
   [("aud", .str "client-id"), ("email", .str "user@example.com")], fun _ => true⟩

/-- A well-formed, validly signed, unexpired ES256 token with no `aud` claim. -/
def tokenNoAud : RawToken :=
  ⟨true, ⟨.ES256, some (.str "key-1")⟩,
   [("exp", .num 1000), ("email", .str "user@example.com")], fun _ => true⟩

/-- An expired (`exp` < now, signature invalid) ES256 token with known kid. -/
def tokenExpiredBadSig : RawToken :=
  ⟨true, ⟨.ES256, some (.str "key-1")⟩,
   [("exp", .num 100), ("aud", .str "client-id")], fun _ => false⟩

/-- A validly signed ES256 token whose `exp` claim is the number `0`. -/
def tokenExpZero : RawToken :=
  ⟨true, ⟨.ES256, some (.str "key-1")⟩,
   [("exp", .num 0), ("aud", .str "client-id")], fun _ => true⟩

/-- A validly signed ES256 token (no `exp`) whose `aud` names another client. -/
def tokenWrongAud : RawToken :=
  ⟨true, ⟨.ES256, some (.str "key-1")⟩,
   [("aud", .str "attacker-client")], fun _ => true⟩

/-- A validly signed ES256 token carrying neither `exp` nor `aud`. -/
def tokenBare : RawToken :=
  ⟨true, ⟨.ES256, some (.str "key-1")⟩,
   [("email", .str "user@example.com")], fun _ => true⟩

/-! ### Helper lemmas about the verifier's event trace and parse outcomes -/

theorem keyfunc_trace_shape (set : KeySet) (t : RawToken) :
    (keyfunc set t).2 = [] ∨ ∃ k, (keyfunc set t).2 = [.lookupKey k] := by
  unfold keyfunc
  split
  · exact .inl rfl
  · split
    · split
      · exact .inr ⟨_, rfl⟩
      · split <;> exact .inr ⟨_, rfl⟩
    · exact .inl rfl

theorem jwtParse_trace_shape (set : KeySet) (t : RawToken) (now : Int) :
    (jwtParse set t now).2 = [] ∨ ∃ k, (jwtParse set t now).2 = [.lookupKey k] := by
  unfold jwtParse
  split
  · exact .inl rfl
  · rcases hk : keyfunc set t with ⟨r, tr⟩
    have htr : tr = [] ∨ ∃ k, tr = [.lookupKey k] := by
      have h2 := keyfunc_trace_shape set t
      rw [hk] at h2
      exact h2
    match r with
    | .error e => exact htr
    | .ok key =>
      dsimp only
      split
      · exact htr
      · exact htr

theorem verify_trace_shape (fr : Option KeySet) (t : RawToken) (now : Int)
    (aud : String) :
    (verifyAppleIDToken fr t now aud).2 = [.fetchKeySet] ∨
    ∃ k, (verifyAppleIDToken fr t now aud).2 = [.fetchKeySet, .lookupKey k] := by
  unfold verifyAppleIDToken
  rcases fr with _ | set
  · exact .inl rfl
  · dsimp only
    rcases hp : jwtParse set t now with ⟨p, tr⟩
    have htr : tr = [] ∨ ∃ k, tr = [.lookupKey k] := by
      have h2 := jwtParse_trace_shape set t now
      rw [hp] at h2
      exact h2
    have hcons : ∀ l : List Event, l = tr →
        Event.fetchKeySet :: l = [.fetchKeySet] ∨
        ∃ k, Event.fetchKeySet :: l = [.fetchKeySet, .lookupKey k] := by
      intro l hl
      subst hl
      rcases htr with h | ⟨k, h⟩ <;> subst h
      · exact .inl rfl
      · exact .inr ⟨k, rfl⟩
    match p with
    | .ok cs =>
      dsimp only
      split
      · split
        · exact hcons tr rfl
        · exact hcons tr rfl
      · exact hcons tr rfl
    | .malformed => exact hcons tr rfl
    | .keyfuncFailed e => exact hcons tr rfl
    | .invalid b => exact hcons tr rfl

theorem verify_trace_countFetch (fr : Option KeySet) (t : RawToken) (now : Int)
    (aud : String) : countFetch (verifyAppleIDToken fr t now aud).2 = 1 := by
  rcases verify_trace_shape fr t now aud with h | ⟨k, h⟩ <;> rw [h] <;> rfl

theorem verify_trace_no_exchange (fr : Option KeySet) (t : RawToken) (now : Int)
    (aud : String) : hasInitiateAuth (verifyAppleIDToken fr t now aud).2 = false := by
  rcases verify_trace_shape fr t now aud with h | ⟨k, h⟩ <;> rw [h] <;> rfl

theorem keyfunc_ok_of (set : KeySet) (t : RawToken) (k : String) (key : JWK)
    (halg : t.header.alg.isECDSA = true) (hkid : t.header.kid = some (.str k))
    (hlk : lookupKeyID set k = some key) (hraw : key.rawOK = true) :
    keyfunc set t = (.ok key, [.lookupKey k]) := by
  simp [keyfunc, halg, hkid, hlk, hraw]

theorem jwtParse_ok_of (set : KeySet) (t : RawToken) (now : Int) (k : String)
    (key : JWK) (hwf : t.wellFormed = true) (halg : t.header.alg.isECDSA = true)
    (hkid : t.header.kid = some (.str k)) (hlk : lookupKeyID set k = some key)
    (hraw : key.rawOK = true) (hexp : verifyExpiresAt t.claims now = true)
    (hiat : verifyIssuedAt t.claims now = true)
    (hnbf : verifyNotBefore t.claims now = true)
    (hsig : t.sigValidFor key.kid = true) :
    jwtParse set t now = (.ok t.claims, [.lookupKey k]) := by
  simp [jwtParse, hwf, keyfunc_ok_of set t k key halg hkid hlk hraw,
    hexp, hiat, hnbf, hsig]

theorem jwtParse_expired_of (set : KeySet) (t : RawToken) (now : Int) (k : String)
    (key : JWK) (hwf : t.wellFormed = true) (halg : t.header.alg.isECDSA = true)
    (hkid : t.header.kid = some (.str k)) (hlk : lookupKeyID set k = some key)
    (hraw : key.rawOK = true) (hexp : verifyExpiresAt t.claims now = false) :
    jwtParse set t now =
      (.invalid ⟨true, !verifyIssuedAt t.claims now, !verifyNotBefore t.claims now,
        !t.sigValidFor key.kid⟩, [.lookupKey k]) := by
  simp [jwtParse, hwf, keyfunc_ok_of set t k key halg hkid hlk hraw, hexp]

theorem jwtParse_ok_inv (set : KeySet) (t : RawToken) (now : Int) (cs : Claims)
    (tr : List Event) (h : jwtParse set t now = (.ok cs, tr)) :
    cs = t.claims ∧ verifyExpiresAt t.claims now = true := by
  unfold jwtParse at h
  split at h
  · simp at h
  · rcases hk : keyfunc set t with ⟨r, tr2⟩
    rw [hk] at h
    match r with
    | .error e => simp at h
    | .ok key =>
      dsimp only at h
      split at h
      · simp at h
      · rename_i hcond
        simp only [Prod.mk.injEq, ParseOutcome.ok.injEq] at h
        refine ⟨h.1.symm, ?_⟩
        simp only [Bool.or_eq_true, Bool.not_eq_true'] at hcond
        push_neg at hcond
        simpa using hcond.1.1.1

/-! ### Claim theorems -/

/-- C3: for every (structurally well-formed) Apple token whose declared signing
algorithm is not of the ECDSA family, verification fails with the
unexpected-signing-method (UnsupportedAlgorithm) error produced by the keyfunc,
and the event trace shows no key lookup was attempted (only the unconditional
key-set fetch occurred). -/
theorem apple_non_ecdsa_rejected_before_lookup (set : KeySet) (t : RawToken)
    (now : Int) (aud : String) (hwf : t.wellFormed = true)
    (halg : t.header.alg.isECDSA = false) :
    (verifyAppleIDToken (some set) t now aud).1
      = .error (.tokenValidationFailed (.keyfuncFailed
          (.unexpectedSigningMethod t.header.alg))) ∧
    (verifyAppleIDToken (some set) t now aud).2 = [.fetchKeySet] := by
  have hk : keyfunc set t
      = (.error (.unexpectedSigningMethod t.header.alg), []) := by
    simp [keyfunc, halg]
  have hp : jwtParse set t now
      = (.keyfuncFailed (.unexpectedSigningMethod t.header.alg), []) := by
    simp [jwtParse, hwf, hk]
  constructor <;> simp [verifyAppleIDToken, hp]

/-- C3 witness: the RS256 fixture is rejected with the signing-method error and
its trace contains no key lookup. -/
theorem apple_non_ecdsa_rejected_before_lookup_witness :
    (verifyAppleIDToken (some sampleKeySet) tokenRS 200 "client-id").1
      = .error (.tokenValidationFailed (.keyfuncFailed
          (.unexpectedSigningMethod .RS256))) ∧
    (verifyAppleIDToken (some sampleKeySet) tokenRS 200 "client-id").2
      = [.fetchKeySet] :=
  apple_non_ecdsa_rejected_before_lookup sampleKeySet tokenRS 200 "client-id" rfl rfl

/-- C9: Apple token verification is deterministic and stateless — the result is
a pure function of the fetched key set, the token, the time and the expected
audience (it does not depend on the process state), and the process state is
returned unchanged. -/
theorem apple_verification_deterministic_and_stateless (σ₁ σ₂ : AppState)
    (fr : Option KeySet) (t : RawToken) (now : Int) (aud : String) :
    (verifyAppleIDTokenSt σ₁ fr t now aud).1
      = (verifyAppleIDTokenSt σ₂ fr t now aud).1 ∧
    (verifyAppleIDTokenSt σ₁ fr t now aud).2 = σ₁ :=
  ⟨rfl, rfl⟩

/-- C2 counterexample: a verification call whose kid is found still performs a
key-set fetch (the fetch is unconditional, so it happens on every call), and on
a kid miss the call fails immediately — the trace ends at the lookup, with no
refresh between the miss and the failure. -/
theorem apple_key_resolver_counterexample :
    (verifyAppleIDToken (some sampleKeySet) tokenGood 200 "client-id").1
      = .ok tokenGood.claims ∧
    countFetch (verifyAppleIDToken (some sampleKeySet) tokenGood 200 "client-id").2
      = 1 ∧
    (verifyAppleIDToken (some sampleKeySet) tokenUnknownKid 200 "client-id").1
      = .error (.tokenValidationFailed (.keyfuncFailed (.noMatchingJWK "other-kid"))) ∧
    (verifyAppleIDToken (some sampleKeySet) tokenUnknownKid 200 "client-id").2
      = [.fetchKeySet, .lookupKey "other-kid"] :=
  ⟨rfl, rfl, rfl, rfl⟩

/-- C2 amended: every verification call performs exactly one key-set fetch,
unconditionally and before anything else; on a kid lookup miss the call fails
with the no-matching-JWK (UnknownKey) error without any rotation-triggered
refresh — the trace is exactly the fetch followed by the failed lookup. -/
theorem apple_keyset_fetched_every_call_no_refresh (fr : Option KeySet)
    (t : RawToken) (now : Int) (aud : String) :
    countFetch (verifyAppleIDToken fr t now aud).2 = 1 ∧
    (verifyAppleIDToken fr t now aud).2.head? = some .fetchKeySet ∧
    (∀ set k, fr = some set → t.wellFormed = true →
      t.header.alg.isECDSA = true → t.header.kid = some (.str k) →
      lookupKeyID set k = none →
      (verifyAppleIDToken fr t now aud).1
        = .error (.tokenValidationFailed (.keyfuncFailed (.noMatchingJWK k))) ∧
      (verifyAppleIDToken fr t now aud).2 = [.fetchKeySet, .lookupKey k]) := by
  refine ⟨verify_trace_countFetch fr t now aud, ?_, ?_⟩
  · rcases verify_trace_shape fr t now aud with h | ⟨k, h⟩ <;> rw [h] <;> rfl
  · intro set k hfr hwf halg hkid hlk
    subst hfr
    have hk : keyfunc set t = (.error (.noMatchingJWK k), [.lookupKey k]) := by
      simp [keyfunc, halg, hkid, hlk]
    have hp : jwtParse set t now
        = (.keyfuncFailed (.noMatchingJWK k), [.lookupKey k]) := by
      simp [jwtParse, hwf, hk]
    constructor <;> simp [verifyAppleIDToken, hp]

/-- C2 amended, witness: the unknown-kid fixture triggers exactly one fetch and
fails with the no-matching-JWK error. -/
theorem apple_keyset_fetched_every_call_no_refresh_witness :
    countFetch
      (verifyAppleIDToken (some sampleKeySet) tokenUnknownKid 200 "client-id").2 = 1 ∧
    (verifyAppleIDToken (some sampleKeySet) tokenUnknownKid 200 "client-id").1
      = .error (.tokenValidationFailed (.keyfuncFailed (.noMatchingJWK "other-kid"))) :=
  ⟨(apple_keyset_fetched_every_call_no_refresh (some sampleKeySet) tokenUnknownKid
      200 "client-id").1,
   ((apple_keyset_fetched_every_call_no_refresh (some sampleKeySet) tokenUnknownKid
      200 "client-id").2.2 sampleKeySet "other-kid" rfl rfl rfl rfl rfl).1⟩

/-- C1 counterexample: a token whose exp is in the past (100 < 200) but whose
declared algorithm is RS256 fails with the signing-method error, which carries
no expiry indication — not with TokenExpired. -/
theorem apple_expired_token_error_counterexample :
    getClaim tokenRS.claims "exp" = some (.num 100) ∧ (100 : Int) < 200 ∧
    (verifyAppleIDToken (some sampleKeySet) tokenRS 200 "client-id").1
      = .error (.tokenValidationFailed (.keyfuncFailed
          (.unexpectedSigningMethod .RS256))) ∧
    expiryFlagged (.tokenValidationFailed (.keyfuncFailed
        (.unexpectedSigningMethod .RS256))) = false :=
  ⟨rfl, by decide, rfl, rfl⟩

/-- C1 amended: every token whose exp claim is a number in the past fails
verification; moreover, whenever the earlier stages pass (well-formed, ECDSA
algorithm, known kid, materialisable key) and exp is nonzero, the failure is a
validation error with the expired flag set — regardless of signature validity.
Tokens that additionally fail an earlier stage report that stage's error
instead. -/
theorem apple_expired_token_always_fails (fr : Option KeySet) (t : RawToken)
    (now : Int) (aud : String) (e : Int)
    (hexp : getClaim t.claims "exp" = some (.num e)) (hlt : e < now) :
    (∀ cs, (verifyAppleIDToken fr t now aud).1 ≠ .ok cs) ∧
    (∀ set k key, fr = some set → t.wellFormed = true →
      t.header.alg.isECDSA = true → t.header.kid = some (.str k) →
      lookupKeyID set k = some key → key.rawOK = true → e ≠ 0 →
      ∃ b : VErrBits, (verifyAppleIDToken fr t now aud).1
          = .error (.tokenValidationFailed (.invalid b)) ∧ b.expired = true) := by
  constructor
  · intro cs
    rcases fr with _ | set
    · simp [verifyAppleIDToken]
    · unfold verifyAppleIDToken
      dsimp only
      rcases hp : jwtParse set t now with ⟨p, tr⟩
      match p with
      | .ok cs2 =>
        have hinv := jwtParse_ok_inv set t now cs2 tr hp
        rw [hinv.1]
        dsimp only
        rw [hexp]
        dsimp only
        rw [if_pos hlt]
        simp
      | .malformed => simp
      | .keyfuncFailed e2 => simp
      | .invalid b => simp
  · intro set k key hfr hwf halg hkid hlk hraw hne
    subst hfr
    have hve : verifyExpiresAt t.claims now = false := by
      simp [verifyExpiresAt, hexp, hne]
      omega
    refine ⟨⟨true, !verifyIssuedAt t.claims now, !verifyNotBefore t.claims now,
      !t.sigValidFor key.kid⟩, ?_, rfl⟩
    simp [verifyAppleIDToken,
      jwtParse_expired_of set t now k key hwf halg hkid hlk hraw hve]

/-- C1 amended, witness: the expired fixture with an invalid signature fails and
the failure has the expired flag set (together with the signature flag). -/
theorem apple_expired_token_always_fails_witness :
    (verifyAppleIDToken (some sampleKeySet) tokenExpiredBadSig 200 "client-id").1
      ≠ .ok tokenExpiredBadSig.claims ∧
    (∃ b : VErrBits,
      (verifyAppleIDToken (some sampleKeySet) tokenExpiredBadSig 200 "client-id").1
        = .error (.tokenValidationFailed (.invalid b)) ∧ b.expired = true) := by
  have h := apple_expired_token_always_fails (some sampleKeySet) tokenExpiredBadSig
    200 "client-id" 100 rfl (by decide)
  exact ⟨h.1 tokenExpiredBadSig.claims,
    h.2 sampleKeySet "key-1" ⟨"key-1", true⟩ rfl rfl rfl rfl rfl rfl (by decide)⟩

/-- C4 counterexample: a validly signed, well-formed token carrying no exp
claim passes verification — exp is not required. -/
theorem apple_token_without_exp_passes :
    getClaim tokenNoExp.claims "exp" = none ∧
    (verifyAppleIDToken (some sampleKeySet) tokenNoExp 200 "client-id").1
      = .ok tokenNoExp.claims :=
  ⟨rfl, rfl⟩

/-- C4 amended: the exp claim is optional. When absent (and everything else
valid) verification succeeds; when present as a nonzero number it must satisfy
now < exp, else verification fails with the expired flag; when present as the
number 0 the jwt-level check treats it as absent but the handler's explicit
check then fails with "token expired" (for positive now). -/
theorem apple_exp_claim_optional (set : KeySet) (t : RawToken) (now : Int)
    (aud k : String) (key : JWK)
    (hwf : t.wellFormed = true) (halg : t.header.alg.isECDSA = true)
    (hkid : t.header.kid = some (.str k)) (hlk : lookupKeyID set k = some key)
    (hraw : key.rawOK = true) (hsig : t.sigValidFor key.kid = true)
    (hiat : getClaim t.claims "iat" = none)
    (hnbf : getClaim t.claims "nbf" = none) :
    (getClaim t.claims "exp" = none → getClaim t.claims "aud" = some (.str aud) →
      (verifyAppleIDToken (some set) t now aud).1 = .ok t.claims) ∧
    (∀ e : Int, getClaim t.claims "exp" = some (.num e) → e ≠ 0 → e ≤ now →
      ∃ b : VErrBits, (verifyAppleIDToken (some set) t now aud).1
          = .error (.tokenValidationFailed (.invalid b)) ∧ b.expired = true) ∧
    (getClaim t.claims "exp" = some (.num 0) → 0 < now →
      (verifyAppleIDToken (some set) t now aud).1 = .error .tokenExpired) := by
  have hiat2 : verifyIssuedAt t.claims now = true := by simp [verifyIssuedAt, hiat]
  have hnbf2 : verifyNotBefore t.claims now = true := by simp [verifyNotBefore, hnbf]
  refine ⟨?_, ?_, ?_⟩
  · intro hexp haud
    have hexp2 : verifyExpiresAt t.claims now = true := by
      simp [verifyExpiresAt, hexp]
    have hp := jwtParse_ok_of set t now k key hwf halg hkid hlk hraw hexp2
      hiat2 hnbf2 hsig
    simp [verifyAppleIDToken, hp, hexp, checkAud, haud]
  · intro e hexp hne hle
    have hexp2 : verifyExpiresAt t.claims now = false := by
      simp [verifyExpiresAt, hexp, hne]
      omega
    refine ⟨⟨true, !verifyIssuedAt t.claims now, !verifyNotBefore t.claims now,
      !t.sigValidFor key.kid⟩, ?_, rfl⟩
    simp [verifyAppleIDToken,
      jwtParse_expired_of set t now k key hwf halg hkid hlk hraw hexp2]
  · intro hexp hpos
    have hexp2 : verifyExpiresAt t.claims now = true := by
      simp [verifyExpiresAt, hexp]
    have hp := jwtParse_ok_of set t now k key hwf halg hkid hlk hraw hexp2
      hiat2 hnbf2 hsig
    simp [verifyAppleIDToken, hp, hexp, hpos]

/-- C4 amended, witness: the no-exp fixture verifies; the exp-zero fixture is
rejected by the explicit "token expired" check. -/
theorem apple_exp_claim_optional_witness :
    (verifyAppleIDToken (some sampleKeySet) tokenNoExp 200 "client-id").1
      = .ok tokenNoExp.claims ∧
    (verifyAppleIDToken (some sampleKeySet) tokenExpZero 200 "client-id").1
      = .error .tokenExpired :=
  ⟨(apple_exp_claim_optional sampleKeySet tokenNoExp 200 "client-id" "key-1"
      ⟨"key-1", true⟩ rfl rfl rfl rfl rfl rfl rfl rfl).1 rfl rfl,
   (apple_exp_claim_optional sampleKeySet tokenExpZero 200 "client-id" "key-1"
      ⟨"key-1", true⟩ rfl rfl rfl rfl rfl rfl rfl rfl).2.2 rfl (by decide)⟩

/-- C5 counterexample: a validly signed, well-formed, unexpired token with no
aud claim at all passes verification against any configured audience. -/
theorem apple_token_without_aud_passes :
    getClaim tokenNoAud.claims "aud" = none ∧
    (verifyAppleIDToken (some sampleKeySet) tokenNoAud 200 "expected-audience").1
      = .ok tokenNoAud.claims :=
  ⟨rfl, rfl⟩

/-- C5 amended: the audience is compared only when the aud claim is present as
a string — then a mismatch fails with the invalid-audience error; a token whose
aud claim is absent passes verification with any configured audience. -/
theorem apple_aud_checked_only_when_string_present (set : KeySet) (t : RawToken)
    (now : Int) (aud k : String) (key : JWK)
    (hwf : t.wellFormed = true) (halg : t.header.alg.isECDSA = true)
    (hkid : t.header.kid = some (.str k)) (hlk : lookupKeyID set k = some key)
    (hraw : key.rawOK = true) (hsig : t.sigValidFor key.kid = true)
    (hiat : getClaim t.claims "iat" = none)
    (hnbf : getClaim t.claims "nbf" = none)
    (hexp : getClaim t.claims "exp" = none) :
    (∀ a, getClaim t.claims "aud" = some (.str a) → a ≠ aud →
      (verifyAppleIDToken (some set) t now aud).1 = .error (.invalidAudience a)) ∧
    (getClaim t.claims "aud" = none →
      (verifyAppleIDToken (some set) t now aud).1 = .ok t.claims) := by
  have hexp2 : verifyExpiresAt t.claims now = true := by
    simp [verifyExpiresAt, hexp]
  have hiat2 : verifyIssuedAt t.claims now = true := by simp [verifyIssuedAt, hiat]
  have hnbf2 : verifyNotBefore t.claims now = true := by simp [verifyNotBefore, hnbf]
  have hp := jwtParse_ok_of set t now k key hwf halg hkid hlk hraw hexp2
    hiat2 hnbf2 hsig
  constructor
  · intro a haud hne
    simp [verifyAppleIDToken, hp, hexp, checkAud, haud, hne]
  · intro haud
    simp [verifyAppleIDToken, hp, hexp, checkAud, haud]

/-- C5 amended, witness: the wrong-audience fixture is rejected with the
invalid-audience error; the no-aud fixture passes. -/
theorem apple_aud_checked_only_when_string_present_witness :
    (verifyAppleIDToken (some sampleKeySet) tokenWrongAud 200 "client-id").1
      = .error (.invalidAudience "attacker-client") ∧
    (verifyAppleIDToken (some sampleKeySet) tokenBare 200 "client-id").1
      = .ok tokenBare.claims :=
  ⟨(apple_aud_checked_only_when_string_present sampleKeySet tokenWrongAud 200
      "client-id" "key-1" ⟨"key-1", true⟩ rfl rfl rfl rfl rfl rfl rfl rfl rfl).1
      "attacker-client" rfl (by decide),
   (apple_aud_checked_only_when_string_present sampleKeySet tokenBare 200
      "client-id" "key-1" ⟨"key-1", true⟩ rfl rfl rfl rfl rfl rfl rfl rfl rfl).2 rfl⟩

/-- C6: on both provider paths, the Cognito credential exchange is invoked only
after token verification succeeds — when verification fails, the handler
returns a 401 response and the event trace contains no InitiateAuth call. -/
theorem exchange_only_after_successful_verification
    (validate : String → Except String GPayload)
    (iaG : String → String → Except String AuthResult) (rbG : Option LoginRequest)
    (appleCID : String) (fr : Option KeySet) (now : Int)
    (iaA : String → Except String AuthResult) (rbA : Option AppleLoginRequest) :
    (∀ req msg, rbG = some req → validate req.idToken = .error msg →
      (loginWithGoogleHandler validate iaG rbG).1
        = .response ⟨401, .text ("invalid google token: " ++ msg)⟩ ∧
      hasInitiateAuth (loginWithGoogleHandler validate iaG rbG).2 = false) ∧
    (∀ req err, rbA = some req →
      (verifyAppleIDToken fr req.idToken now appleCID).1 = .error err →
      (loginWithAppleHandler appleCID fr now iaA rbA).1.status = 401 ∧
      hasInitiateAuth (loginWithAppleHandler appleCID fr now iaA rbA).2 = false) := by
  constructor
  · intro req msg hrb hv
    subst hrb
    constructor <;> simp [loginWithGoogleHandler, hv, hasInitiateAuth]
  · intro req err hrb hv
    subst hrb
    rcases hver : verifyAppleIDToken fr req.idToken now appleCID with ⟨r, tr⟩
    have hr : r = .error err := by rw [hver] at hv; exact hv
    subst hr
    have htr : hasInitiateAuth tr = false := by
      have h2 := verify_trace_no_exchange fr req.idToken now appleCID
      rw [hver] at h2
      exact h2
    constructor <;> simp [loginWithAppleHandler, hver, htr]

/-- C6 witness: a failing Google validation yields 401 without exchange, and a
failing Apple verification (RS256 fixture) yields 401. -/
theorem exchange_only_after_successful_verification_witness :
    (loginWithGoogleHandler (fun _ => .error "boom") (fun _ _ => .error "x")
        (some ⟨"tok"⟩)).1
      = .response ⟨401, .text ("invalid google token: " ++ "boom")⟩ ∧
    (loginWithAppleHandler "client-id" (some sampleKeySet) 200
        (fun _ => .error "x") (some ⟨tokenRS⟩)).1.status = 401 := by
  have h := exchange_only_after_successful_verification
    (fun _ => .error "boom") (fun _ _ => .error "x") (some ⟨"tok"⟩)
    "client-id" (some sampleKeySet) 200 (fun _ => .error "x") (some ⟨tokenRS⟩)
  exact ⟨(h.1 ⟨"tok"⟩ "boom" rfl rfl).1,
    (h.2 ⟨tokenRS⟩ (.tokenValidationFailed (.keyfuncFailed
      (.unexpectedSigningMethod .RS256))) rfl rfl).1⟩

/-- C7: for every Apple request whose token verifies (with a string email
claim) but whose Cognito InitiateAuth call fails, the handler responds 200 with
the JSON body whose single field is the message "Apple login verified for
(email) (Cognito not configured)". -/
theorem apple_degraded_exchange_response (appleCID : String)
    (fr : Option KeySet) (now : Int) (ia : String → Except String AuthResult)
    (req : AppleLoginRequest) (cs : Claims) (tr : List Event) (s msg : String)
    (hv : verifyAppleIDToken fr req.idToken now appleCID = (.ok cs, tr))
    (he : getClaim cs "email" = some (.str s)) (hia : ia s = .error msg) :
    (loginWithAppleHandler appleCID fr now ia (some req)).1
      = ⟨200, .jsonFields [("message",
          "Apple login verified for " ++ s ++ " (Cognito not configured)")]⟩ := by
  have hne : ("Apple login verified for " ++ s ++ " (Cognito not configured)")
      ≠ "" := by
    intro h
    have h2 := congrArg String.length h
    rw [String.length_append, String.length_append] at h2
    have h3 : ("Apple login verified for ").length = 25 := rfl
    have h4 : (" (Cognito not configured)").length = 25 := rfl
    have h5 : ("" : String).length = 0 := rfl
    omega
  simp [loginWithAppleHandler, hv, sprintfV, he, hia,
    encodeAppleLoginResponse, hne]

/-- C7 witness: the good fixture with an unreachable Cognito backend produces
the degraded 200 message response. -/
theorem apple_degraded_exchange_response_witness :
    (loginWithAppleHandler "client-id" (some sampleKeySet) 200
        (fun _ => .error "backend unreachable") (some ⟨tokenGood⟩)).1
      = ⟨200, .jsonFields [("message", "Apple login verified for "
          ++ "user@example.com" ++ " (Cognito not configured)")]⟩ :=
  apple_degraded_exchange_response "client-id" (some sampleKeySet) 200
    (fun _ => .error "backend unreachable") ⟨tokenGood⟩ tokenGood.claims
    [.fetchKeySet, .lookupKey "key-1"] "user@example.com" "backend unreachable"
    rfl rfl rfl

/-- C8 counterexample: a malformed-body Google request is answered 400 with the
plain-text body "invalid request body", which is not shaped as an
error-JSON object. -/
theorem google_failure_body_not_error_json :
    (loginWithGoogleHandler (fun _ => .error "e") (fun _ _ => .error "e") none).1
      = .response ⟨400, .text "invalid request body"⟩ ∧
    isErrorObjectShaped (.text "invalid request body") = false :=
  ⟨rfl, by decide⟩

/-- C8 amended: every response the Google handler writes is either a 200 whose
body is the three-field session JSON, or a 400/401 whose body is plain text
that is not shaped as an error-JSON object (the handler can also panic and
write nothing, see the email type assertion). -/
theorem google_response_shape (validate : String → Except String GPayload)
    (ia : String → String → Except String AuthResult)
    (rb : Option LoginRequest) (r : HTTPResponse)
    (h : (loginWithGoogleHandler validate ia rb).1 = .response r) :
    (r.status = 200 ∧ ∃ a i rt, r.body
        = .jsonFields [("access_token", a), ("id_token", i), ("refresh_token", rt)]) ∨
    ((r.status = 400 ∨ r.status = 401) ∧
      ∃ s, r.body = .text s ∧ isErrorObjectShaped (.text s) = false) := by
  have hpre : ∀ pre rest : String, listIsPrefix "\x7b\"error\"".toList
      (pre ++ rest).toList = listIsPrefix "\x7b\"error\"".toList
        (pre.toList ++ rest.toList) := by
    intro pre rest
    simp [String.toList, String.data_append]
  rcases rb with _ | req
  · simp only [loginWithGoogleHandler, GoogleOutcome.response.injEq] at h
    subst h
    exact .inr ⟨.inl rfl, "invalid request body", rfl, by decide⟩
  · unfold loginWithGoogleHandler at h
    dsimp only at h
    rcases hval : validate req.idToken with msg | payload <;> rw [hval] at h
    · dsimp only at h
      simp only [GoogleOutcome.response.injEq] at h
      subst h
      refine .inr ⟨.inr rfl, "invalid google token: " ++ msg, rfl, ?_⟩
      simp only [isErrorObjectShaped, hpre]
      rfl
    · dsimp only at h
      rcases hem : getClaim payload.claims "email" with _ | v
      · rw [hem] at h
        simp at h
      · match v with
        | .str email =>
          rw [hem] at h
          dsimp only at h
          rcases hia : ia email req.idToken with msg | res <;> rw [hia] at h <;>
            dsimp only at h <;> simp only [GoogleOutcome.response.injEq] at h <;>
            subst h
          · refine .inr ⟨.inr rfl, "cognito auth error: " ++ msg, rfl, ?_⟩
            simp only [isErrorObjectShaped, hpre]
            rfl
          · exact .inl ⟨rfl, _, _, _, rfl⟩
        | .num n =>
          rw [hem] at h
          simp at h
        | .other =>
          rw [hem] at h
          simp at h

/-- C8 amended, witness: the validation-failure response is a 401 with a
plain-text body. -/
theorem google_response_shape_witness :
    ((⟨401, .text ("invalid google token: " ++ "boom")⟩ : HTTPResponse).status
        = 200 ∧ ∃ a i rt, (⟨401, .text ("invalid google token: " ++ "boom")⟩
          : HTTPResponse).body
        = .jsonFields [("access_token", a), ("id_token", i), ("refresh_token", rt)]) ∨
    (((⟨401, .text ("invalid google token: " ++ "boom")⟩ : HTTPResponse).status
        = 400 ∨ (⟨401, .text ("invalid google token: " ++ "boom")⟩
          : HTTPResponse).status = 401) ∧
      ∃ s, (⟨401, .text ("invalid google token: " ++ "boom")⟩
          : HTTPResponse).body = .text s ∧
        isErrorObjectShaped (.text s) = false) :=
  google_response_shape (fun _ => .error "boom") (fun _ _ => .error "x")
    (some ⟨"tok"⟩) ⟨401, .text ("invalid google token: " ++ "boom")⟩ rfl

/-- C10: when a Google token validates but its payload's email claim is absent
or not a string, the handler's unchecked type assertion panics instead of
writing a response; with a string email claim the handler always writes a
response. -/
theorem google_email_type_assertion_panics
    (validate : String → Except String GPayload)
    (ia : String → String → Except String AuthResult)
    (req : LoginRequest) (p : GPayload)
    (hv : validate req.idToken = .ok p) :
    ((∀ s, getClaim p.claims "email" ≠ some (.str s)) →
      (loginWithGoogleHandler validate ia (some req)).1 = .panicked) ∧
    (∀ s, getClaim p.claims "email" = some (.str s) →
      ∃ r, (loginWithGoogleHandler validate ia (some req)).1 = .response r) := by
  constructor
  · intro hne
    unfold loginWithGoogleHandler
    dsimp only
    rw [hv]
    dsimp only
    rcases hem : getClaim p.claims "email" with _ | v
    · rfl
    · match v with
      | .str s => exact absurd hem (hne s)
      | .num n => rfl
      | .other => rfl
  · intro s hem
    unfold loginWithGoogleHandler
    dsimp only
    rw [hv]
    dsimp only
    rw [hem]
    dsimp only
    rcases hia : ia s req.idToken with msg | res
    · exact ⟨_, rfl⟩
    · exact ⟨_, rfl⟩

/-- C10 witness: a validated payload with no email claim panics; one with a
string email claim writes a response. -/
theorem google_email_type_assertion_panics_witness :
    (loginWithGoogleHandler (fun _ => .ok ⟨[]⟩) (fun _ _ => .error "x")
        (some ⟨"tok"⟩)).1 = .panicked ∧
    ∃ r, (loginWithGoogleHandler
        (fun _ => .ok ⟨[("email", .str "user@example.com")]⟩)
        (fun _ _ => .error "x") (some ⟨"tok"⟩)).1 = .response r :=
  ⟨(google_email_type_assertion_panics (fun _ => .ok ⟨[]⟩)
      (fun _ _ => .error "x") ⟨"tok"⟩ ⟨[]⟩ rfl).1 (fun _ h => Option.noConfusion h),
   (google_email_type_assertion_panics
      (fun _ => .ok ⟨[("email", .str "user@example.com")]⟩)
      (fun _ _ => .error "x") ⟨"tok"⟩ ⟨[("email", .str "user@example.com")]⟩
      rfl).2 "user@example.com" rfl⟩

end CognitoOAuth2
